import Mathlib

/-!
Shallow embedding of littlebot.py: a repeating HTTP-request scheduler.

Datetimes are modelled as `Int` (seconds on a linear clock, a calendar day
being 86400 seconds), timedeltas as `Int`, the float `max_number` as
`Option ℚ` where `none` stands for the default `float('inf')`.
Interactive operator answers and per-request network outcomes are passed
in explicitly, since they are external inputs of the program.
-/

/-- Outcome of one HTTP request as the code classifies it:
a transport error raised by `urllib.request.urlopen`, or a response
carrying a status code. -/
inductive ReqOutcome where
  | netError : ReqOutcome
  | status : Nat → ReqOutcome
deriving DecidableEq, Repr

/-- Python truthiness of the optional `max_time` argument:
`None` is falsy and so is `datetime.timedelta(0)`; every other timedelta
is truthy.  This is the test `if max_time:` on line 45. -/
def timedeltaTruthy : Option Int → Bool
  | none => false
  | some d => d != 0

/-- `start_time.replace(hour=0, minute=0, second=0, microsecond=0)
+ dt.timedelta(days=1)` (lines 49-51): midnight at the start of the next
calendar day, with datetimes as second counts. -/
def nextMidnight (t : Int) : Int :=
  t - t % 86400 + 86400

/-- `self.finish_time` as resolved by `RepeatingThread.__init__`
(lines 45-51): a truthy `max_time` gives `start_time + max_time`;
otherwise an explicit `finish_time` if one is given; otherwise midnight
ending `start_time`'s day. -/
def resolvedFinish (start : Int) (finish_time : Option Int) (max_time : Option Int) : Int :=
  if timedeltaTruthy max_time then start + max_time.getD 0
  else
    match finish_time with
    | some f => f
    | none => nextMidnight start

/-- The message of the `ValueError` raised on line 53. -/
def finishBeforeStartMsg : String :=
  "Finish time cannot be before the start time."

/-- The resolved state a `RepeatingThread` holds after a successful
`__init__`: lines 42-44 and 59 store the arguments, lines 45-51 resolve
the finish time. -/
structure RepeatingThread where
  address : String
  interval : Int
  start_time : Int
  finish_time : Int
  max_number : Option ℚ
deriving DecidableEq, Repr

/-- `RepeatingThread.__init__` (lines 36-63).  `capturedNow` models the
default argument `start_time=dt.datetime.now()` on line 37: Python
evaluates a default expression once, when the `def` is executed at class
definition time, so the body never reads the clock — an omitted
`start_time` always resolves to that single captured value.
A resolved finish time earlier than the start time raises `ValueError`
(lines 52-56), modelled as `Except.error`. -/
def RepeatingThread.init (capturedNow : Int) (address : String) (interval : Int)
    (start_time : Option Int) (finish_time : Option Int) (max_time : Option Int)
    (max_number : Option ℚ) : Except String RepeatingThread :=
  let start := start_time.getD capturedNow
  let finish := resolvedFinish start finish_time max_time
  if finish < start then Except.error finishBeforeStartMsg
  else Except.ok { address := address, interval := interval, start_time := start,
                   finish_time := finish, max_number := max_number }

/-- The start time a construction resolved, `none` when construction
raised. -/
def startOf : Except String RepeatingThread → Option Int
  | Except.ok rt => some rt.start_time
  | Except.error _ => none

/-- `self.number >= self.max_number` (line 70): an int compared to a
float that defaults to `float('inf')` (any finite count is below
infinity). -/
def geMax (n : Nat) : Option ℚ → Bool
  | none => false
  | some m => decide (m ≤ (n : ℚ))

/-- `bool(self.stopped)` for `self.stopped` a `threading.Event` object:
`Event` defines neither `__bool__` nor `__len__`, so the object itself is
always truthy, whatever the state of the flag.  Line 66 tests
`not self.stopped`, not `not self.stopped.is_set()`. -/
def eventObjectTruthy : Bool := true

/-- Whether the stop event's internal flag is set at time `t`, given the
absolute time `cancelAt` at which an external controller sets it
(`none` = never). -/
def isSet (cancelAt : Option Int) (t : Int) : Bool :=
  match cancelAt with
  | none => false
  | some c => decide (c ≤ t)

/-- `self.stopped.wait(self.interval)` started at time `t`: returns the
flag value and the time at which the wait returns — immediately when the
flag is already set, at `cancelAt` when it becomes set during the wait,
and after the full `interval` otherwise. -/
def eventWait (cancelAt : Option Int) (t interval : Int) : Bool × Int :=
  match cancelAt with
  | none => (false, t + interval)
  | some c =>
      if c ≤ t then (true, t)
      else if c ≤ t + interval then (true, c)
      else (false, t + interval)

/-- The scheduler-visible state while `run` executes: the current clock,
`self.number`, and the spawned workers as (spawn time, attempt number)
pairs, most recent first. -/
structure RunState where
  time : Int
  number : Nat
  spawned : List (Int × Nat)
deriving DecidableEq, Repr

/-- The initial `RunState` of a `run` entered at time `t0`:
`self.number = 0` (line 61) and no worker spawned yet. -/
def runState0 (t0 : Int) : RunState :=
  { time := t0, number := 0, spawned := [] }

/-- The first loop of `RepeatingThread.run` (lines 66-67):
`while not self.stopped and not dt.datetime.now() >= self.start_time:
time.sleep(1)`.  Returns the time at which the loop exits, given fuel
for the iterations. -/
def RepeatingThread.waitLoop (rt : RepeatingThread) : Nat → Int → Int
  | 0, t => t
  | fuel + 1, t =>
      if (!eventObjectTruthy && decide (t < rt.start_time)) then
        rt.waitLoop fuel (t + 1)
      else t

/-- The second loop of `RepeatingThread.run` (lines 68-78): exits when
the current time has reached `finish_time`, or `number` has reached
`max_number`, or `stopped.wait(interval)` reports the stop flag; the
wait is part of the condition, so it runs before the body, which
increments `self.number` and spawns the worker for that attempt.
Fuel bounds the number of iterations; `none` means fuel ran out. -/
def RepeatingThread.tickLoop (rt : RepeatingThread) (cancelAt : Option Int) :
    Nat → RunState → Option RunState
  | 0, _ => none
  | fuel + 1, s =>
      if rt.finish_time ≤ s.time then some s
      else if geMax s.number rt.max_number then some s
      else
        let w := eventWait cancelAt s.time rt.interval
        if w.1 then some { s with time := w.2 }
        else
          rt.tickLoop cancelAt fuel
            { time := w.2, number := s.number + 1,
              spawned := (w.2, s.number + 1) :: s.spawned }

/-- `RepeatingThread.run` (lines 65-90) up to the spawn loop's exit:
the initial wait loop followed by the tick loop, entered at clock time
`t0`.  (The drain loop and the final logging, lines 79-90, touch only
the concurrent `threads_alive` counter and the log.) -/
def RepeatingThread.run (rt : RepeatingThread) (cancelAt : Option Int)
    (t0 : Int) (waitFuel tickFuel : Nat) : Option RunState :=
  rt.tickLoop cancelAt tickFuel (runState0 (rt.waitLoop waitFuel t0))

/-- Modelled from the spec: section 4.1 step 2's tick, written for
comparison with `RepeatingThread.tickLoop`.  Per the spec's words the
conditions are checked in the order cancellation signaled, current time
at or past `finish_time`, attempts at `max_count`; if none hold the
counter is incremented, the worker for that attempt spawned, and only
then does the loop wait up to `interval` for a cancellation signal. -/
def tickLoopSpec (rt : RepeatingThread) (cancelAt : Option Int) :
    Nat → RunState → Option RunState
  | 0, _ => none
  | fuel + 1, s =>
      if isSet cancelAt s.time then some s
      else if rt.finish_time ≤ s.time then some s
      else if geMax s.number rt.max_number then some s
      else
        let s1 : RunState :=
          { time := s.time, number := s.number + 1,
            spawned := (s.time, s.number + 1) :: s.spawned }
        let w := eventWait cancelAt s.time rt.interval
        if w.1 then some { s1 with time := w.2 }
        else tickLoopSpec rt cancelAt fuel { s1 with time := w.2 }

/-- The shared-counter operations a worker performs on its
`RepeatingThread`. -/
inductive CtrOp where
  | incAlive : CtrOp
  | decAlive : CtrOp
  | incSucc : CtrOp
deriving DecidableEq, Repr

/-- `request_address` (lines 93-111) as the sequence of counter
operations it performs for a given request outcome:
`master.threads_alive += 1` first; on a transport error, log and
decrement `threads_alive` and return; on a non-200 status, log and
decrement; on status 200, `master.successes += 1` then decrement. -/
def request_address (outcome : ReqOutcome) : List CtrOp :=
  CtrOp.incAlive ::
    match outcome with
    | ReqOutcome.netError => [CtrOp.decAlive]
    | ReqOutcome.status c =>
        if c = 200 then [CtrOp.incSucc, CtrOp.decAlive] else [CtrOp.decAlive]

/-- How many times a worker with the given outcome increments
`successes`. -/
def succCount (o : ReqOutcome) : Nat :=
  (request_address o).count CtrOp.incSucc

/-- Operator answer to the try-again / continue / abort prompt of
`repeat_request` (lines 124-131), after the re-prompt loop has resolved
to a recognized choice. -/
inductive TCA where
  | tryAgain : TCA
  | contAnyway : TCA
  | abort : TCA
deriving DecidableEq, Repr

/-- Operator answer to the continue-anyway yes/no prompt
(lines 146-151), after the re-prompt loop has resolved. -/
inductive YN where
  | yes : YN
  | no : YN
deriving DecidableEq, Repr

/-- The probing part of `repeat_request` (lines 117-157): successive
probe outcomes are consumed from `probes` (the recursive retry on line
139 performs a fresh probe), try/continue/abort answers from `tcas`.
Returns `some true` when the function reaches the scheduling code,
`some false` when it returns early (operator abort), and `none` when
the retry recursion exhausts the supplied outcomes.  After a transport
error answered with continue-anyway, `req` is `None`, so the status
check is skipped (lines 142-143); the yes/no prompt is reached only for
an actual non-200 response. -/
def probeGate (yn : YN) : List ReqOutcome → List TCA → Option Bool
  | [], _ => none
  | p :: ps, tcas =>
      match p with
      | ReqOutcome.status c =>
          if c = 200 then some true
          else
            match yn with
            | YN.yes => some true
            | YN.no => some false
      | ReqOutcome.netError =>
          match tcas with
          | [] => none
          | t :: ts =>
              match t with
              | TCA.contAnyway => some true
              | TCA.abort => some false
              | TCA.tryAgain => probeGate yn ps ts

/-- Lifecycle of one spawned worker thread: created by the scheduler but
not yet running its first statement, running, or returned with the
recorded request outcome. -/
inductive WStatus where
  | pending : WStatus
  | running : WStatus
  | done : ReqOutcome → WStatus
deriving DecidableEq, Repr

/-- The shared state of a run as the concurrent system sees it: the
scheduler's attempt counter `self.number`, the shared `self.successes`
and `self.threads_alive` counters, and one `WStatus` per worker thread
the scheduler has spawned. -/
structure Sys where
  number : Nat
  successes : Nat
  threads_alive : Int
  workers : List WStatus
deriving DecidableEq, Repr

/-- The state at the start of `run`: counters zeroed (lines 61-63), no
worker spawned. -/
def sysInit : Sys :=
  { number := 0, successes := 0, threads_alive := 0, workers := [] }

/-- One transition of the concurrent system.  `spawn` is the tick-loop
body (lines 73-78): `self.number += 1` and a new worker thread started.
`work_begin` is the worker's first statement
(`master.threads_alive += 1`, line 94); `work_finish` is the rest of
`request_address` for the worker's outcome: `successes` grows by the
number of `incSucc` operations in the worker's trace and
`threads_alive` is decremented once (lines 98-111).  Workers interleave
arbitrarily. -/
inductive Step : Sys → Sys → Prop
  | spawn (s : Sys) :
      Step s { s with number := s.number + 1,
                      workers := s.workers ++ [WStatus.pending] }
  | work_begin (s : Sys) (l₁ l₂ : List WStatus)
      (h : s.workers = l₁ ++ WStatus.pending :: l₂) :
      Step s { s with threads_alive := s.threads_alive + 1,
                      workers := l₁ ++ WStatus.running :: l₂ }
  | work_finish (s : Sys) (o : ReqOutcome) (l₁ l₂ : List WStatus)
      (h : s.workers = l₁ ++ WStatus.running :: l₂) :
      Step s { s with threads_alive := s.threads_alive - 1,
                      successes := s.successes + succCount o,
                      workers := l₁ ++ WStatus.done o :: l₂ }

/-- States of the concurrent system reachable from `init` by
interleaved scheduler and worker steps. -/
def Reachable (init s : Sys) : Prop :=
  Relation.ReflTransGen Step init s

/-- `repeat_request` (lines 114-163): runs the probe gate; on abort it
returns without constructing anything (`Except.ok none`); otherwise it
constructs the `RepeatingThread` (a `ValueError` propagates as
`Except.error`) and starts it (`Except.ok (some rt)`).  The outer
`none` means the probe retries exhausted the supplied outcomes. -/
def repeat_request (capturedNow : Int) (address : String) (interval : Int)
    (start_time finish_time max_time : Option Int) (max_number : Option ℚ)
    (probes : List ReqOutcome) (tcas : List TCA) (yn : YN) :
    Option (Except String (Option RepeatingThread)) :=
  match probeGate yn probes tcas with
  | none => none
  | some false => some (Except.ok none)
  | some true =>
      some ((RepeatingThread.init capturedNow address interval start_time
               finish_time max_time max_number).map some)

/-- How often a worker in the given lifecycle state has incremented
`successes` so far: a finished worker contributes its trace's `incSucc`
count, an unfinished one nothing (the increment is the worker's last
action before the decrement of `threads_alive`). -/
def WStatus.succ : WStatus → Nat
  | WStatus.done o => succCount o
  | _ => 0

/-- Invariant of the concurrent system: the attempt counter equals the
number of workers spawned, and `successes` is the total of the finished
workers' success increments. -/
def SysInv (s : Sys) : Prop :=
  s.number = s.workers.length ∧
    s.successes = (s.workers.map WStatus.succ).sum

/-- How much a worker in the given lifecycle state contributes to
`threads_alive`: a begun, unfinished worker holds one increment
(line 94) whose matching decrement (line 102 or 111) has not run yet. -/
def WStatus.alive : WStatus → Int
  | WStatus.running => 1
  | _ => 0

/-- The in-flight counter equals the number of begun, unfinished
workers. -/
def AliveInv (s : Sys) : Prop :=
  s.threads_alive = (s.workers.map WStatus.alive).sum

/-- Whether every spawned worker has finished. -/
def allDone : List WStatus → Bool
  | [] => true
  | WStatus.done _ :: l => allDone l
  | _ => false

/-- Python truthiness of the int tested by the drain loop on line 79
(`while self.threads_alive:`): an int is truthy iff it is nonzero, so
the loop exits exactly when the in-flight count is zero. -/
def intTruthy (n : Int) : Bool := n != 0

/-! ## Helper lemmas about the scheduler loops -/

theorem eventWait_none (t interval : Int) : eventWait none t interval = (false, t + interval) := rfl

theorem eventWait_snd_of_not_fst (cancelAt : Option Int) (t interval : Int)
    (h : (eventWait cancelAt t interval).1 = false) :
    (eventWait cancelAt t interval).2 = t + interval := by
  cases cancelAt with
  | none => rfl
  | some c =>
      by_cases h1 : c ≤ t
      · simp [eventWait, h1] at h
      · by_cases h2 : c ≤ t + interval
        · simp [eventWait, h1, h2] at h
        · simp [eventWait, h1, h2]

theorem waitLoop_eq (rt : RepeatingThread) (fuel : Nat) (t : Int) :
    rt.waitLoop fuel t = t := by
  cases fuel with
  | zero => rfl
  | succ fuel => rfl

theorem tickLoop_exit_finish (rt : RepeatingThread) (cancelAt : Option Int)
    (fuel : Nat) (s : RunState) (h : rt.finish_time ≤ s.time) :
    rt.tickLoop cancelAt (fuel + 1) s = some s := by
  simp [RepeatingThread.tickLoop, h]

theorem tickLoop_exit_max (rt : RepeatingThread) (cancelAt : Option Int)
    (fuel : Nat) (s : RunState) (h : geMax s.number rt.max_number = true) :
    rt.tickLoop cancelAt (fuel + 1) s = some s := by
  simp [RepeatingThread.tickLoop, h]

theorem tickLoop_exit_isSet (rt : RepeatingThread) (cancelAt : Option Int)
    (fuel : Nat) (s : RunState) (h : isSet cancelAt s.time = true) :
    rt.tickLoop cancelAt (fuel + 1) s = some s := by
  cases cancelAt with
  | none => simp [isSet] at h
  | some c =>
      simp only [isSet, decide_eq_true_eq] at h
      simp only [RepeatingThread.tickLoop]
      split
      · rfl
      · split
        · rfl
        · have hw : eventWait (some c) s.time rt.interval = (true, s.time) := by
            simp [eventWait, h]
          simp [hw]

theorem tickLoop_step (rt : RepeatingThread) (cancelAt : Option Int)
    (fuel : Nat) (s : RunState)
    (h1 : ¬ rt.finish_time ≤ s.time)
    (h2 : geMax s.number rt.max_number = false)
    (h3 : (eventWait cancelAt s.time rt.interval).1 = false) :
    rt.tickLoop cancelAt (fuel + 1) s =
      rt.tickLoop cancelAt fuel
        { time := s.time + rt.interval, number := s.number + 1,
          spawned := (s.time + rt.interval, s.number + 1) :: s.spawned } := by
  have hw := eventWait_snd_of_not_fst cancelAt s.time rt.interval h3
  simp [RepeatingThread.tickLoop, h1, h2, h3, hw]

theorem tickLoop_exit_wait (rt : RepeatingThread) (cancelAt : Option Int)
    (fuel : Nat) (s : RunState)
    (h1 : ¬ rt.finish_time ≤ s.time)
    (h2 : geMax s.number rt.max_number = false)
    (h3 : (eventWait cancelAt s.time rt.interval).1 = true) :
    rt.tickLoop cancelAt (fuel + 1) s =
      some { s with time := (eventWait cancelAt s.time rt.interval).2 } := by
  simp [RepeatingThread.tickLoop, h1, h2, h3]

theorem tickLoop_zero (rt : RepeatingThread) (cancelAt : Option Int) (s : RunState) :
    rt.tickLoop cancelAt 0 s = none := rfl

/-- If the loop is entered with `finish_time` at most `k` intervals away,
it can spawn at most `k` more workers before the time check stops it. -/
theorem tickLoop_number_le (rt : RepeatingThread) (cancelAt : Option Int) :
    ∀ (fuel k : Nat) (s s' : RunState), 0 < rt.interval →
      rt.finish_time ≤ s.time + (k : Int) * rt.interval →
      rt.tickLoop cancelAt fuel s = some s' →
      s'.number ≤ s.number + k := by
  intro fuel
  induction fuel with
  | zero => intro k s s' _ _ h; rw [tickLoop_zero] at h; exact absurd h (by simp)
  | succ fuel ih =>
      intro k s s' hi hk h
      by_cases h1 : rt.finish_time ≤ s.time
      · rw [tickLoop_exit_finish rt cancelAt fuel s h1] at h
        cases h
        omega
      · by_cases h2 : geMax s.number rt.max_number = true
        · rw [tickLoop_exit_max rt cancelAt fuel s h2] at h
          cases h
          omega
        · rw [Bool.not_eq_true] at h2
          by_cases h3 : (eventWait cancelAt s.time rt.interval).1 = true
          · rw [tickLoop_exit_wait rt cancelAt fuel s h1 h2 h3] at h
            cases h
            show s.number ≤ s.number + k
            omega
          · rw [Bool.not_eq_true] at h3
            rw [tickLoop_step rt cancelAt fuel s h1 h2 h3] at h
            cases k with
            | zero =>
                exfalso
                apply h1
                simpa using hk
            | succ k =>
                have hk2 : rt.finish_time ≤ (s.time + rt.interval) + (k : Int) * rt.interval := by
                  have : s.time + ((k : Int) + 1) * rt.interval
                      = (s.time + rt.interval) + (k : Int) * rt.interval := by ring
                  push_cast at hk
                  omega
                have h4 : s'.number ≤ s.number + 1 + k := ih k _ s' hi hk2 h
                omega

/-- With an integer `max_number`, the attempt counter never exceeds it:
a worker is spawned only when the pre-spawn counter is strictly below
the bound. -/
theorem tickLoop_natMax_le (rt : RepeatingThread) (cancelAt : Option Int)
    (m : Nat) (hm : rt.max_number = some (m : ℚ)) :
    ∀ (fuel : Nat) (s s' : RunState), s.number ≤ m →
      rt.tickLoop cancelAt fuel s = some s' → s'.number ≤ m := by
  intro fuel
  induction fuel with
  | zero => intro s s' _ h; rw [tickLoop_zero] at h; exact absurd h (by simp)
  | succ fuel ih =>
      intro s s' hs h
      by_cases h1 : rt.finish_time ≤ s.time
      · rw [tickLoop_exit_finish rt cancelAt fuel s h1] at h
        cases h
        exact hs
      · by_cases h2 : geMax s.number rt.max_number = true
        · rw [tickLoop_exit_max rt cancelAt fuel s h2] at h
          cases h
          exact hs
        · rw [Bool.not_eq_true] at h2
          by_cases h3 : (eventWait cancelAt s.time rt.interval).1 = true
          · rw [tickLoop_exit_wait rt cancelAt fuel s h1 h2 h3] at h
            cases h
            exact hs
          · rw [Bool.not_eq_true] at h3
            rw [tickLoop_step rt cancelAt fuel s h1 h2 h3] at h
            have hlt : s.number < m := by
              rw [hm] at h2
              simp only [geMax, decide_eq_false_iff_not, not_le] at h2
              exact_mod_cast h2
            exact ih _ s' (by show s.number + 1 ≤ m; omega) h

/-- The attempt counter counts exactly the spawned workers. -/
theorem tickLoop_number_spawned (rt : RepeatingThread) (cancelAt : Option Int) :
    ∀ (fuel : Nat) (s s' : RunState), s.number = s.spawned.length →
      rt.tickLoop cancelAt fuel s = some s' → s'.number = s'.spawned.length := by
  intro fuel
  induction fuel with
  | zero => intro s s' _ h; rw [tickLoop_zero] at h; exact absurd h (by simp)
  | succ fuel ih =>
      intro s s' hs h
      by_cases h1 : rt.finish_time ≤ s.time
      · rw [tickLoop_exit_finish rt cancelAt fuel s h1] at h
        cases h
        exact hs
      · by_cases h2 : geMax s.number rt.max_number = true
        · rw [tickLoop_exit_max rt cancelAt fuel s h2] at h
          cases h
          exact hs
        · rw [Bool.not_eq_true] at h2
          by_cases h3 : (eventWait cancelAt s.time rt.interval).1 = true
          · rw [tickLoop_exit_wait rt cancelAt fuel s h1 h2 h3] at h
            cases h
            exact hs
          · rw [Bool.not_eq_true] at h3
            rw [tickLoop_step rt cancelAt fuel s h1 h2 h3] at h
            refine ih _ s' ?_ h
            dsimp only
            simp [hs]

/-- Without cancellation, the tick loop fires attempt `k` exactly `k`
intervals after loop entry: each wait precedes its spawn. -/
theorem tickLoop_spawn_times (rt : RepeatingThread) (t0 : Int) :
    ∀ (fuel : Nat) (s s' : RunState),
      s.time = t0 + (s.number : Int) * rt.interval →
      (∀ p ∈ s.spawned,
        1 ≤ p.2 ∧ p.2 ≤ s.number ∧ p.1 = t0 + (p.2 : Int) * rt.interval) →
      rt.tickLoop none fuel s = some s' →
      (∀ p ∈ s'.spawned,
        1 ≤ p.2 ∧ p.2 ≤ s'.number ∧ p.1 = t0 + (p.2 : Int) * rt.interval) := by
  intro fuel
  induction fuel with
  | zero => intro s s' _ _ h; rw [tickLoop_zero] at h; exact absurd h (by simp)
  | succ fuel ih =>
      intro s s' ht hs h
      by_cases h1 : rt.finish_time ≤ s.time
      · rw [tickLoop_exit_finish rt none fuel s h1] at h
        cases h
        exact hs
      · by_cases h2 : geMax s.number rt.max_number = true
        · rw [tickLoop_exit_max rt none fuel s h2] at h
          cases h
          exact hs
        · rw [Bool.not_eq_true] at h2
          rw [tickLoop_step rt none fuel s h1 h2 rfl] at h
          have htime : s.time + rt.interval = t0 + ((s.number + 1 : Nat) : Int) * rt.interval := by
            rw [ht]
            push_cast
            ring
          refine ih _ s' ?_ ?_ h
          · dsimp only [eventWait]
            exact htime
          · dsimp only [eventWait]
            intro p hp
            rcases List.mem_cons.mp hp with hp | hp
            · subst hp
              exact ⟨by omega, by omega, htime⟩
            · have h5 := hs p hp
              exact ⟨h5.1, by omega, h5.2.2⟩

/-! ## Helper lemmas about the worker counter traces -/

theorem succCount_netError : succCount ReqOutcome.netError = 0 := rfl

theorem succCount_status (c : Nat) :
    succCount (ReqOutcome.status c) = if c = 200 then 1 else 0 := by
  by_cases hc : c = 200 <;> simp [succCount, request_address, hc]

theorem succCount_le_one (o : ReqOutcome) : succCount o ≤ 1 := by
  cases o with
  | netError => simp [succCount_netError]
  | status c => rw [succCount_status]; split <;> omega

theorem WStatus_succ_le_one (w : WStatus) : w.succ ≤ 1 := by
  cases w with
  | pending => exact Nat.zero_le 1
  | running => exact Nat.zero_le 1
  | done o => exact succCount_le_one o

theorem sum_succ_le_length (l : List WStatus) :
    (l.map WStatus.succ).sum ≤ l.length := by
  induction l with
  | nil => simp
  | cons w l ih =>
      simp only [List.map_cons, List.sum_cons, List.length_cons]
      have := WStatus_succ_le_one w
      omega

theorem step_preserves_inv {s s' : Sys} (hst : Step s s') (h : SysInv s) : SysInv s' := by
  obtain ⟨hn, hs⟩ := h
  cases hst with
  | spawn =>
      constructor
      · simp [hn]
      · simpa using hs
  | work_begin l₁ l₂ hw =>
      constructor
      · simpa [hw] using hn
      · rw [hw] at hs
        simpa [WStatus.succ] using hs
  | work_finish o l₁ l₂ hw =>
      constructor
      · simpa [hw] using hn
      · rw [hw] at hs
        simp only [List.map_append, List.map_cons, List.sum_append, List.sum_cons,
          WStatus.succ] at hs ⊢
        omega

theorem reachable_inv {s : Sys} (h : Reachable sysInit s) : SysInv s := by
  induction h with
  | refl => exact ⟨rfl, rfl⟩
  | tail _ hstep ih => exact step_preserves_inv hstep ih

theorem step_preserves_aliveInv {s s' : Sys} (hst : Step s s') (h : AliveInv s) :
    AliveInv s' := by
  unfold AliveInv at h ⊢
  cases hst with
  | spawn =>
      simpa [WStatus.alive] using h
  | work_begin l₁ l₂ hw =>
      rw [hw] at h
      simp only [List.map_append, List.map_cons, List.sum_append, List.sum_cons,
        WStatus.alive] at h ⊢
      omega
  | work_finish o l₁ l₂ hw =>
      rw [hw] at h
      simp only [List.map_append, List.map_cons, List.sum_append, List.sum_cons,
        WStatus.alive] at h ⊢
      omega

theorem reachable_aliveInv {s : Sys} (h : Reachable sysInit s) : AliveInv s := by
  induction h with
  | refl => rfl
  | tail _ hstep ih => exact step_preserves_aliveInv hstep ih

theorem allDone_alive_zero :
    ∀ l : List WStatus, allDone l = true → (l.map WStatus.alive).sum = 0 := by
  intro l
  induction l with
  | nil => intro _; rfl
  | cons w l ih =>
      intro h
      cases w with
      | pending => simp [allDone] at h
      | running => simp [allDone] at h
      | done o =>
          rw [show allDone (WStatus.done o :: l) = allDone l from rfl] at h
          simp only [List.map_cons, List.sum_cons, WStatus.alive]
          rw [ih h]
          rfl

/-! ## Claims -/

/-- Claim C1 (code bug): for a job whose `start_time` (10) is in the
future of the clock (0), the pre-start wait loop exits immediately —
line 66 tests the truthiness of the `Event` object itself, which is
always true, so `not self.stopped` is always false — and the tick loop
spawns its first worker at time 2, before `start_time`. -/
theorem C1_spawns_before_start_time :
    RepeatingThread.waitLoop
        { address := "a", interval := 2, start_time := 10, finish_time := 100,
          max_number := some 1 } 5 0 = 0 ∧
    RepeatingThread.run
        { address := "a", interval := 2, start_time := 10, finish_time := 100,
          max_number := some 1 } none 0 5 5
      = some { time := 2, number := 1, spawned := [(2, 1)] } ∧
    (2 : Int) < 10 := by
  refine ⟨rfl, by decide, by decide⟩

/-- Claim C2: whenever the resolved finish time is earlier than the
resolved start time, construction raises `ValueError` and
`repeat_request` can never return a started thread, whatever the probe
outcomes and operator answers. -/
theorem C2_finish_before_start_fails (capturedNow : Int) (address : String)
    (interval : Int) (start_time finish_time max_time : Option Int)
    (max_number : Option ℚ)
    (h : resolvedFinish (start_time.getD capturedNow) finish_time max_time
           < start_time.getD capturedNow) :
    RepeatingThread.init capturedNow address interval start_time finish_time
        max_time max_number = Except.error finishBeforeStartMsg ∧
    ∀ (probes : List ReqOutcome) (tcas : List TCA) (yn : YN) (rt : RepeatingThread),
      repeat_request capturedNow address interval start_time finish_time max_time
          max_number probes tcas yn ≠ some (Except.ok (some rt)) := by
  have hinit : RepeatingThread.init capturedNow address interval start_time
      finish_time max_time max_number = Except.error finishBeforeStartMsg := by
    simp [RepeatingThread.init, h]
  refine ⟨hinit, ?_⟩
  intro probes tcas yn rt
  simp only [repeat_request]
  cases hpg : probeGate yn probes tcas with
  | none => simp
  | some b =>
      cases b with
      | false => simp
      | true => simp [hinit, Except.map]

/-- Witness for C2 at a concrete input: explicit finish time 50 before
explicit start time 100. -/
theorem C2_witness :
    RepeatingThread.init 0 "a" 1 (some 100) (some 50) none none
        = Except.error finishBeforeStartMsg ∧
    repeat_request 0 "a" 1 (some 100) (some 50) none none
        [ReqOutcome.status 200] [] YN.yes
      ≠ some (Except.ok (some { address := "a", interval := 1, start_time := 100,
                                finish_time := 50, max_number := none })) := by
  have h := C2_finish_before_start_fails 0 "a" 1 (some 100) (some 50) none none
    (by decide)
  exact ⟨h.1, h.2 [ReqOutcome.status 200] [] YN.yes _⟩

/-- Claim C3 as stated is false: `max_time = timedelta(0)` is a given
max duration, but line 45's `if max_time:` treats it as absent (a zero
timedelta is falsy), so an explicit finish time 500 is used instead of
`start_time + max_duration = 0`. -/
theorem C3_counterexample :
    resolvedFinish 0 (some 500) (some 0) = 500 ∧ (500 : Int) ≠ 0 + 0 := by
  exact ⟨rfl, by decide⟩

/-- Claim C3, amended: a nonzero (truthy) `max_time` overrides any
explicit finish time; a zero `max_time` behaves exactly as an absent
one; otherwise an explicit finish time is used as given; with neither,
the finish time is the unique midnight properly after `start_time` and
at most one day away. -/
theorem C3_finish_resolution_priority (start : Int) :
    (∀ (d : Int) (f : Option Int), d ≠ 0 →
        resolvedFinish start f (some d) = start + d) ∧
    (∀ f : Option Int, resolvedFinish start f (some 0) = resolvedFinish start f none) ∧
    (∀ f : Int, resolvedFinish start (some f) none = f) ∧
    resolvedFinish start none none = nextMidnight start ∧
    nextMidnight start % 86400 = 0 ∧
    start < nextMidnight start ∧ nextMidnight start ≤ start + 86400 := by
  refine ⟨?_, ?_, ?_, rfl, ?_, ?_, ?_⟩
  · intro d f hd
    have ht : timedeltaTruthy (some d) = true := by
      simp [timedeltaTruthy]
      exact hd
    simp [resolvedFinish, ht]
  · intro f
    rfl
  · intro f
    rfl
  · simp only [nextMidnight]
    omega
  · simp only [nextMidnight]
    omega
  · simp only [nextMidnight]
    omega

/-- Witness for C3 at concrete inputs: nonzero duration 5 overrides
finish time 7; absent duration uses finish time 7; with nothing given,
start 100 resolves to midnight 86400. -/
theorem C3_witness :
    resolvedFinish 100 (some 7) (some 5) = 105 ∧
    resolvedFinish 100 (some 7) none = 7 ∧
    resolvedFinish 100 none none = 86400 := by
  have h := C3_finish_resolution_priority 100
  refine ⟨h.1 5 (some 7) (by decide), h.2.2.1 7, ?_⟩
  rw [h.2.2.2.1]
  decide

/-- Claim C9 (code bug): `__init__` never reads the clock — the default
start time is the single value captured when the class body ran (100
here), so a construction with `start_time` omitted resolves to 100 no
matter when it is invoked (the claim expects call times 200 or 300). -/
theorem C9_default_start_captured_once :
    startOf (RepeatingThread.init 100 "a" 1 none none none none) = some 100 ∧
    (100 : Int) ≠ 200 ∧ (100 : Int) ≠ 300 := by
  refine ⟨by decide, by decide, by decide⟩

/-- Claim C4 as stated is false in its general part: with the fractional
`max_number = 5/2` (a legal float for `-n`), the loop spawns a third
worker from counter value 2 < 5/2, so the final counter 3 exceeds
`max_number`. -/
theorem C4_counterexample :
    (RepeatingThread.tickLoop
        { address := "a", interval := 1, start_time := 0, finish_time := 100,
          max_number := some (mkRat 5 2) } none 10 (runState0 0)).map RunState.number
      = some 3 ∧
    ¬ ((3 : ℚ) ≤ mkRat 5 2) ∧ mkRat 5 2 = 5 / 2 := by
  refine ⟨by decide, by decide, by norm_num [Rat.mkRat_eq_div]⟩

/-- Claim C4, amended: with `max_number = 3` and a finish time more than
two intervals away, the loop spawns exactly 3 workers — at one, two and
three intervals after entry — and then exits the spawn loop; once every
spawned worker has finished, the in-flight count is zero, so the drain
loop of line 79 exits and the run finishes; and for every integer
`max_number` the attempt counter never exceeds it (a fractional bound
can be exceeded by less than one). -/
theorem C4_exactly_three_attempts :
    (∀ (rt : RepeatingThread) (t0 : Int) (g : Nat),
        rt.max_number = some 3 → 0 < rt.interval →
        t0 + 2 * rt.interval < rt.finish_time →
        rt.tickLoop none (g + 4) (runState0 t0)
          = some { time := t0 + 3 * rt.interval, number := 3,
                   spawned := [(t0 + 3 * rt.interval, 3), (t0 + 2 * rt.interval, 2),
                               (t0 + rt.interval, 1)] }) ∧
    (∀ s : Sys, Reachable sysInit s → allDone s.workers = true →
        s.threads_alive = 0 ∧ intTruthy s.threads_alive = false) ∧
    (∀ (m : Nat) (rt : RepeatingThread) (cancelAt : Option Int) (fuel : Nat)
        (t0 : Int) (s' : RunState),
        rt.max_number = some (m : ℚ) →
        rt.tickLoop cancelAt fuel (runState0 t0) = some s' → s'.number ≤ m) := by
  refine ⟨?_, ?_, ?_⟩
  · intro rt t0 g hmax hi hfin
    have hg : ∀ n : Nat, n < 3 → geMax n rt.max_number = false := by
      intro n hn
      rw [hmax]
      interval_cases n <;> rfl
    have e1 : rt.tickLoop none (g + 4) (runState0 t0)
        = rt.tickLoop none (g + 3)
            ⟨t0 + rt.interval, 1, [(t0 + rt.interval, 1)]⟩ :=
      tickLoop_step rt none (g + 3) (runState0 t0)
        (show ¬ rt.finish_time ≤ t0 by omega) (hg 0 (by omega)) rfl
    have e2 : rt.tickLoop none (g + 3) ⟨t0 + rt.interval, 1, [(t0 + rt.interval, 1)]⟩
        = rt.tickLoop none (g + 2)
            ⟨t0 + rt.interval + rt.interval, 2,
             [(t0 + rt.interval + rt.interval, 2), (t0 + rt.interval, 1)]⟩ :=
      tickLoop_step rt none (g + 2) ⟨t0 + rt.interval, 1, [(t0 + rt.interval, 1)]⟩
        (show ¬ rt.finish_time ≤ t0 + rt.interval by omega) (hg 1 (by omega)) rfl
    have e3 : rt.tickLoop none (g + 2)
          ⟨t0 + rt.interval + rt.interval, 2,
           [(t0 + rt.interval + rt.interval, 2), (t0 + rt.interval, 1)]⟩
        = rt.tickLoop none (g + 1)
            ⟨t0 + rt.interval + rt.interval + rt.interval, 3,
             [(t0 + rt.interval + rt.interval + rt.interval, 3),
              (t0 + rt.interval + rt.interval, 2), (t0 + rt.interval, 1)]⟩ :=
      tickLoop_step rt none (g + 1)
        ⟨t0 + rt.interval + rt.interval, 2,
         [(t0 + rt.interval + rt.interval, 2), (t0 + rt.interval, 1)]⟩
        (show ¬ rt.finish_time ≤ t0 + rt.interval + rt.interval by omega)
        (hg 2 (by omega)) rfl
    have e4 : rt.tickLoop none (g + 1)
          ⟨t0 + rt.interval + rt.interval + rt.interval, 3,
           [(t0 + rt.interval + rt.interval + rt.interval, 3),
            (t0 + rt.interval + rt.interval, 2), (t0 + rt.interval, 1)]⟩
        = some ⟨t0 + rt.interval + rt.interval + rt.interval, 3,
                [(t0 + rt.interval + rt.interval + rt.interval, 3),
                 (t0 + rt.interval + rt.interval, 2), (t0 + rt.interval, 1)]⟩ :=
      tickLoop_exit_max rt none g _ (by rw [show RepeatingThread.max_number rt = some 3 from hmax]; rfl)
    rw [e1, e2, e3, e4]
    have r3 : t0 + rt.interval + rt.interval + rt.interval = t0 + 3 * rt.interval := by
      ring
    have r2 : t0 + rt.interval + rt.interval = t0 + 2 * rt.interval := by
      ring
    rw [r3, r2]
  · intro s hs hdone
    have h0 : s.threads_alive = 0 := by
      rw [reachable_aliveInv hs]
      exact allDone_alive_zero s.workers hdone
    refine ⟨h0, ?_⟩
    rw [h0]
    rfl
  · intro m rt cancelAt fuel t0 s' hm h
    exact tickLoop_natMax_le rt cancelAt m hm fuel (runState0 t0) s'
      (Nat.zero_le m) h

/-- Witness for C4 at a concrete input: interval 7, entry time 5,
finish 1000, `max_number = 3`: exactly the three workers fire; and the
state reached after one spawned worker begins and finishes with status
404 has all workers done and in-flight count zero, so the drain loop
exits there. -/
theorem C4_witness :
    RepeatingThread.tickLoop
        { address := "a", interval := 7, start_time := 5, finish_time := 1000,
          max_number := some 3 } none 6 (runState0 5)
      = some { time := 26, number := 3, spawned := [(26, 3), (19, 2), (12, 1)] } ∧
    ({ number := 1, successes := 0, threads_alive := 0,
       workers := [WStatus.done (ReqOutcome.status 404)] } : Sys).threads_alive = 0 ∧
    ({ time := 26, number := 3, spawned := [(26, 3), (19, 2), (12, 1)] } : RunState).number ≤ 3 := by
  have h1 := C4_exactly_three_attempts.1
    { address := "a", interval := 7, start_time := 5, finish_time := 1000,
      max_number := some 3 } 5 2 rfl (by decide) (by decide)
  have hchain : Reachable sysInit
      { number := 1, successes := 0, threads_alive := 0,
        workers := [WStatus.done (ReqOutcome.status 404)] } :=
    Relation.ReflTransGen.tail
      (Relation.ReflTransGen.tail
        (Relation.ReflTransGen.single (Step.spawn sysInit))
        (Step.work_begin _ [] [] rfl))
      (Step.work_finish _ (ReqOutcome.status 404) [] [] rfl)
  have h2 := (C4_exactly_three_attempts.2.1 _ hchain rfl).1
  have h3 := C4_exactly_three_attempts.2.2 3
    { address := "a", interval := 7, start_time := 5, finish_time := 1000,
      max_number := some 3 } none 6 5
    { time := 26, number := 3, spawned := [(26, 3), (19, 2), (12, 1)] } rfl
  exact ⟨h1, h2, h3 h1⟩

/-- Claim C5 as stated is false: for the job with unbounded `max_number`,
`start_time = 100`, `interval = 10` and `finish_time = 120 = start_time
+ 2 × interval`, a run whose thread starts at clock 0 spawns 12 workers,
not at most 2 — the broken pre-start wait (C1) lets the tick loop run
from time 0. -/
theorem C5_counterexample :
    (RepeatingThread.run
        { address := "a", interval := 10, start_time := 100, finish_time := 120,
          max_number := none } none 0 3 20).map RunState.number = some 12 ∧
    ¬ ((12 : Nat) ≤ 2) := by
  refine ⟨by decide, by decide⟩

/-- Claim C5, amended: provided the run is entered no earlier than
`start_time`, a job with `finish_time = start_time + 2 × interval`
spawns at most 2 workers; and a tick whose check happens at or past
`finish_time` (in particular exactly at it) terminates the loop without
firing. -/
theorem C5_two_interval_window (rt : RepeatingThread) (cancelAt : Option Int)
    (t0 : Int) (waitFuel tickFuel : Nat) (s' : RunState)
    (hi : 0 < rt.interval)
    (hstart : rt.start_time ≤ t0)
    (hfin : rt.finish_time = rt.start_time + 2 * rt.interval)
    (hrun : rt.run cancelAt t0 waitFuel tickFuel = some s') :
    s'.number ≤ 2 ∧
    ∀ (fuel : Nat) (s : RunState), rt.finish_time ≤ s.time →
      rt.tickLoop cancelAt (fuel + 1) s = some s := by
  constructor
  · have he : rt.run cancelAt t0 waitFuel tickFuel
        = rt.tickLoop cancelAt tickFuel (runState0 t0) := by
      simp [RepeatingThread.run, waitLoop_eq]
    rw [he] at hrun
    have hb : rt.finish_time ≤ (runState0 t0).time + ((2 : Nat) : Int) * rt.interval := by
      show rt.finish_time ≤ t0 + ((2 : Nat) : Int) * rt.interval
      push_cast
      omega
    have h2 := tickLoop_number_le rt cancelAt tickFuel 2 (runState0 t0) s' hi hb hrun
    have h3 : s'.number ≤ 0 + 2 := h2
    omega
  · intro fuel s hs
    exact tickLoop_exit_finish rt cancelAt fuel s hs

/-- Witness for C5 at a concrete input: start 0, interval 5, finish 10,
run entered at time 0 spawns exactly the workers of attempts 1 and 2,
and the boundary tick at time 10 = finish does not fire. -/
theorem C5_witness :
    ({ time := 10, number := 2, spawned := [(10, 2), (5, 1)] } : RunState).number ≤ 2 ∧
    RepeatingThread.tickLoop
        { address := "a", interval := 5, start_time := 0, finish_time := 10,
          max_number := none } none 1 ⟨10, 2, [(10, 2), (5, 1)]⟩
      = some ⟨10, 2, [(10, 2), (5, 1)]⟩ := by
  have h := C5_two_interval_window
    { address := "a", interval := 5, start_time := 0, finish_time := 10,
      max_number := none } none 0 1 5
    { time := 10, number := 2, spawned := [(10, 2), (5, 1)] }
    (by decide) (by decide) (by decide) (by decide)
  exact ⟨h.1, h.2 0 ⟨10, 2, [(10, 2), (5, 1)]⟩ (by decide)⟩

/-- Claim C6 as stated is false: the tick described by the spec's order
(check cancellation, finish time and count, then spawn, then wait) fires
its first worker at loop entry time 0, but the code's loop — where
`stopped.wait(interval)` is part of the loop condition and thus runs
before the body — fires its first worker only at time 5, one full
interval later; the two orders produce different spawn schedules. -/
theorem C6_counterexample :
    (RepeatingThread.tickLoop
        { address := "a", interval := 5, start_time := 0, finish_time := 100,
          max_number := some 3 } none 10 (runState0 0)).map RunState.spawned
      = some [(15, 3), (10, 2), (5, 1)] ∧
    (tickLoopSpec
        { address := "a", interval := 5, start_time := 0, finish_time := 100,
          max_number := some 3 } none 10 (runState0 0)).map RunState.spawned
      = some [(10, 3), (5, 2), (0, 1)] ∧
    ([(15, 3), (10, 2), (5, 1)] : List (Int × Nat)) ≠ [(10, 3), (5, 2), (0, 1)] := by
  refine ⟨by decide, by decide, by decide⟩

/-- Claim C6, amended: each iteration checks current time ≥ finish_time,
then attempts ≥ max_count, then performs the interruptible wait of up to
`interval` (the cancellation check); only when the wait ends unsignaled
does it increment the counter and spawn.  Hence attempt `k` fires `k`
intervals after loop entry (the wait precedes the spawn, so the first
attempt fires only after one full interval); a tick entered at or past
`finish_time`, or with the counter at an integer bound, or with the stop
flag already set, exits with no new spawn. -/
theorem C6_wait_precedes_spawn (rt : RepeatingThread) :
    (∀ (fuel : Nat) (t0 : Int) (s' : RunState),
        rt.tickLoop none fuel (runState0 t0) = some s' →
        ∀ p ∈ s'.spawned, 1 ≤ p.2 ∧ p.1 = t0 + (p.2 : Int) * rt.interval) ∧
    (∀ (cancelAt : Option Int) (fuel : Nat) (s : RunState),
        isSet cancelAt s.time = true → rt.tickLoop cancelAt (fuel + 1) s = some s) ∧
    (∀ (cancelAt : Option Int) (fuel : Nat) (s : RunState),
        rt.finish_time ≤ s.time → rt.tickLoop cancelAt (fuel + 1) s = some s) ∧
    (∀ (cancelAt : Option Int) (fuel : Nat) (s : RunState) (m : ℚ),
        rt.max_number = some m → m ≤ (s.number : ℚ) →
        rt.tickLoop cancelAt (fuel + 1) s = some s) := by
  refine ⟨?_, ?_, ?_, ?_⟩
  · intro fuel t0 s' h p hp
    have hstart : (runState0 t0).time = t0 + (((runState0 t0).number : Nat) : Int) * rt.interval := by
      show t0 = t0 + ((0 : Nat) : Int) * rt.interval
      simp
    have hempty : ∀ q ∈ (runState0 t0).spawned,
        1 ≤ q.2 ∧ q.2 ≤ (runState0 t0).number ∧
          q.1 = t0 + (q.2 : Int) * rt.interval := by
      intro q hq
      simp [runState0] at hq
    have h5 := tickLoop_spawn_times rt t0 fuel (runState0 t0) s' hstart hempty h p hp
    exact ⟨h5.1, h5.2.2⟩
  · intro cancelAt fuel s hset
    exact tickLoop_exit_isSet rt cancelAt fuel s hset
  · intro cancelAt fuel s hfin
    exact tickLoop_exit_finish rt cancelAt fuel s hfin
  · intro cancelAt fuel s m hm hle
    refine tickLoop_exit_max rt cancelAt fuel s ?_
    rw [hm]
    simp only [geMax, decide_eq_true_eq]
    exact hle

/-- Witness for C6 at a concrete input: interval 5, `max_number = 2`;
the run fires attempt 1 at time 5 (one interval after entry at 0, not at
0), a stop flag set at entry time stops a tick with no spawn, and so do
the finish-time and count checks. -/
theorem C6_witness :
    (1 ≤ 1 ∧ (5 : Int) = 0 + ((1 : Nat) : Int) * 5) ∧
    RepeatingThread.tickLoop
        { address := "a", interval := 5, start_time := 0, finish_time := 100,
          max_number := some 2 } (some 0) 1 ⟨0, 0, []⟩ = some ⟨0, 0, []⟩ ∧
    RepeatingThread.tickLoop
        { address := "a", interval := 5, start_time := 0, finish_time := 100,
          max_number := some 2 } none 1 ⟨100, 0, []⟩ = some ⟨100, 0, []⟩ ∧
    RepeatingThread.tickLoop
        { address := "a", interval := 5, start_time := 0, finish_time := 100,
          max_number := some 2 } none 1 ⟨10, 2, [(10, 2), (5, 1)]⟩
      = some ⟨10, 2, [(10, 2), (5, 1)]⟩ := by
  have h := C6_wait_precedes_spawn
    { address := "a", interval := 5, start_time := 0, finish_time := 100,
      max_number := some 2 }
  refine ⟨?_, ?_, ?_, ?_⟩
  · exact h.1 10 0 ⟨10, 2, [(10, 2), (5, 1)]⟩ (by decide) (5, 1) (by decide)
  · exact h.2.1 (some 0) 0 ⟨0, 0, []⟩ (by decide)
  · exact h.2.2.1 none 0 ⟨100, 0, []⟩ (by decide)
  · exact h.2.2.2 none 0 ⟨10, 2, [(10, 2), (5, 1)]⟩ 2 rfl (by decide)

/-- Claim C7: in every state reachable by interleaved scheduler and
worker steps, `successes ≤ number` and `number` equals the number of
workers spawned; a single worker increments `successes` at most once;
and in the tick loop the counter equals the length of the spawn list,
not the number of iterations evaluated. -/
theorem C7_counters_invariant :
    (∀ s : Sys, Reachable sysInit s →
        s.successes ≤ s.number ∧ s.number = s.workers.length) ∧
    (∀ o : ReqOutcome, succCount o ≤ 1) ∧
    (∀ (rt : RepeatingThread) (cancelAt : Option Int) (fuel : Nat) (t0 : Int)
        (s' : RunState),
        rt.tickLoop cancelAt fuel (runState0 t0) = some s' →
        s'.number = s'.spawned.length) := by
  refine ⟨?_, succCount_le_one, ?_⟩
  · intro s hs
    have h := reachable_inv hs
    refine ⟨?_, h.1⟩
    rw [h.2, h.1]
    exact sum_succ_le_length s.workers
  · intro rt cancelAt fuel t0 s' h
    exact tickLoop_number_spawned rt cancelAt fuel _ s' rfl h

/-- Witness for C7: the state reached by spawning one worker, letting it
begin and finish with status 200 satisfies the invariant, and a concrete
three-tick run has counter 3 equal to its spawn-list length. -/
theorem C7_witness :
    ({ number := 1, successes := 1, threads_alive := 0,
       workers := [WStatus.done (ReqOutcome.status 200)] } : Sys).successes
      ≤ ({ number := 1, successes := 1, threads_alive := 0,
           workers := [WStatus.done (ReqOutcome.status 200)] } : Sys).number ∧
    succCount (ReqOutcome.status 404) ≤ 1 ∧
    ({ time := 3, number := 3, spawned := [(3, 3), (2, 2), (1, 1)] } : RunState).number
      = ({ time := 3, number := 3,
           spawned := [(3, 3), (2, 2), (1, 1)] } : RunState).spawned.length := by
  have hchain : Reachable sysInit
      { number := 1, successes := 1, threads_alive := 0,
        workers := [WStatus.done (ReqOutcome.status 200)] } :=
    Relation.ReflTransGen.tail
      (Relation.ReflTransGen.tail
        (Relation.ReflTransGen.single (Step.spawn sysInit))
        (Step.work_begin _ [] [] rfl))
      (Step.work_finish _ (ReqOutcome.status 200) [] [] rfl)
  refine ⟨(C7_counters_invariant.1 _ hchain).1, C7_counters_invariant.2.1 _, ?_⟩
  exact C7_counters_invariant.2.2
    { address := "a", interval := 1, start_time := 0, finish_time := 3,
      max_number := none } none 5 0
    { time := 3, number := 3, spawned := [(3, 3), (2, 2), (1, 1)] } (by decide)

/-- Claim C8: on every path — success, non-200 status and transport
error alike — a worker increments the in-flight counter exactly once and
decrements it exactly once, and on the non-200 path (as on the error
path) it performs no `successes` increment. -/
theorem C8_worker_counter_discipline (o : ReqOutcome) :
    (request_address o).count CtrOp.incAlive = 1 ∧
    (request_address o).count CtrOp.decAlive = 1 ∧
    (∀ c : Nat, o = ReqOutcome.status c → c ≠ 200 →
        (request_address o).count CtrOp.incSucc = 0) ∧
    (o = ReqOutcome.netError → (request_address o).count CtrOp.incSucc = 0) := by
  cases o with
  | netError =>
      refine ⟨by decide, by decide, ?_, fun _ => by decide⟩
      intro c hc
      exact absurd hc (by simp)
  | status c =>
      refine ⟨?_, ?_, ?_, ?_⟩
      · by_cases hc : c = 200 <;> simp [request_address, hc]
      · by_cases hc : c = 200 <;> simp [request_address, hc]
      · intro c2 h hne
        cases h
        simp [request_address, hne]
      · intro h
        exact absurd h (by simp)

/-- Witness for C8 at a concrete input: a worker seeing status 404
increments and decrements the in-flight counter once each and never
touches `successes`. -/
theorem C8_witness :
    (request_address (ReqOutcome.status 404)).count CtrOp.incAlive = 1 ∧
    (request_address (ReqOutcome.status 404)).count CtrOp.decAlive = 1 ∧
    (request_address (ReqOutcome.status 404)).count CtrOp.incSucc = 0 := by
  have h := C8_worker_counter_discipline (ReqOutcome.status 404)
  exact ⟨h.1, h.2.1, h.2.2.1 404 rfl (by decide)⟩

/-- Claim C10: when the operator chooses abort — after a network failure
on the probe, or by declining to continue on a non-200 status —
`repeat_request` returns `None` without constructing or starting any
`RepeatingThread`, and without raising. -/
theorem C10_operator_abort_no_schedule (capturedNow : Int) (address : String)
    (interval : Int) (start_time finish_time max_time : Option Int)
    (max_number : Option ℚ) (probes : List ReqOutcome) (tcas : List TCA) (yn : YN) :
    repeat_request capturedNow address interval start_time finish_time max_time
        max_number (ReqOutcome.netError :: probes) (TCA.abort :: tcas) yn
      = some (Except.ok none) ∧
    ∀ c : Nat, c ≠ 200 →
      repeat_request capturedNow address interval start_time finish_time max_time
          max_number (ReqOutcome.status c :: probes) tcas YN.no
        = some (Except.ok none) := by
  constructor
  · rfl
  · intro c hc
    simp [repeat_request, probeGate, hc]

/-- Witness for C10 at a concrete input: a probe failing with status 503
and the operator answering no, and a probe raising a transport error
with the operator answering abort, both end with no thread. -/
theorem C10_witness :
    repeat_request 0 "a" 1 none none none none
        [ReqOutcome.netError] [TCA.abort] YN.yes = some (Except.ok none) ∧
    repeat_request 0 "a" 1 none none none none
        [ReqOutcome.status 503] [] YN.no = some (Except.ok none) := by
  have h := C10_operator_abort_no_schedule 0 "a" 1 none none none none [] [] YN.yes
  exact ⟨h.1, h.2 503 (by decide)⟩
